import Mathlib

/-!
Verification of the algorithmic core of the JaltolAPI repository.

Shallow embedding of:
- `compare_village` (gee_api/ee_processing.py, lines 169-211), the
  terrain-similarity control-site matcher;
- `calculate_area`, `calculate_radius`, `process_custom_polygon`
  (gee_api/polygon_processing.py), the area-equivalent sampler.

The Earth Engine backend (vector filtering, buffering, raster statistics,
stratified sampling) is external to the repository; it is modelled as an
oracle: a structure of functions giving the backend answer to each query the
source code performs.  Floating-point arithmetic of the source is modelled
with exact rationals; the float square root `** 0.5` is an oracle function
`sqrtR`, assumed exact (`(sqrtR v) ^ 2 = v`) only where a theorem needs it.
Division by zero on `Rat` yields 0, matching the Earth Engine convention that
`divide` returns 0 for a zero denominator.
-/

namespace JaltolAPI

/-- Abstract geometry handle: an identifier for a backend-side geometry. -/
abbrev Geom := Nat

/-- Region: one SHRUG vector feature, carrying its `village_na` name
attribute and its geometry handle. -/
structure Region where
  name : String
  geom : Geom
deriving DecidableEq, Repr

/-- Constant `compare_village_buffer` from gee_api/constants.py line 50. -/
def compare_village_buffer : Int := 5000

/-- Backend oracle for one `compare_village` run (state, district and
subdistrict are fixed for the run).  `village_fc_geom` is the geometry of the
`village_boundary` result for the treated village; `siblings` is the
`subdistrict_boundary` feature list; `buffer`, `intersects` and `slopeStd`
answer the geometry-buffer, `filterBounds` and slope-standard-deviation
queries (`compute_slope`, scale 30). -/
structure EEBackend where
  village_fc_geom : Geom
  siblings : List Region
  buffer : Geom → Int → Geom
  intersects : Geom → Geom → Bool
  slopeStd : Geom → Rat

/-- Relative slope difference set by `subtract_value` in `compare_village`
(ee_processing.py lines 200-204): `abs(((s - t) / t) * 100)`. -/
def relative_diff (t s : Rat) : Rat := abs ((s - t) / t * 100)

/-- Candidate pool built in `compare_village` (ee_processing.py lines
191-197): the subdistrict siblings restricted by `filterBounds` to the
treated geometry buffered by `compare_village_buffer`, then filtered by
`spatial_filter` (name not equal to the treated village name) and
`null_filter` (name not empty). -/
def filteredPool (B : EEBackend) (village_name : String) : List Region :=
  let buf := B.buffer B.village_fc_geom compare_village_buffer
  ((B.siblings.filter (fun c => B.intersects c.geom buf)).filter
      (fun c => c.name != village_name)).filter (fun c => c.name != "")

/-- Comparator used to model the Earth Engine ascending sort on the
`slope_diff` property. -/
def diffLE (a b : Region × Rat) : Prop := a.2 ≤ b.2

instance : DecidableRel diffLE := fun a b =>
  inferInstanceAs (Decidable (a.2 ≤ b.2))

instance : IsTotal (Region × Rat) diffLE := ⟨fun a b => le_total a.2 b.2⟩

instance : IsTrans (Region × Rat) diffLE :=
  ⟨fun _ _ _ hab hbc => le_trans hab hbc⟩

/-- Shallow embedding of `compare_village` (ee_processing.py lines 169-211):
compute the treated slope statistic, score every filtered candidate with its
relative slope difference, sort ascending on the difference and take the
first feature.  The Earth Engine `first()` of an empty collection is null,
modelled by `none`. -/
def compare_village (B : EEBackend) (village_name : String) :
    Option (Region × Rat) :=
  let tstat := B.slopeStd B.village_fc_geom
  let scored := (filteredPool B village_name).map
    (fun c => (c, relative_diff tstat (B.slopeStd c.geom)))
  (List.insertionSort diffLE scored).head?

/-- Scored candidate list of a `compare_village` run. -/
def scoredPool (B : EEBackend) (village_name : String) : List (Region × Rat) :=
  (filteredPool B village_name).map
    (fun c => (c, relative_diff (B.slopeStd B.village_fc_geom) (B.slopeStd c.geom)))

lemma compare_village_eq_head :
    ∀ (B : EEBackend) (v : String),
      compare_village B v = (List.insertionSort diffLE (scoredPool B v)).head? :=
  fun _ _ => rfl

/-- Helper: a successful `compare_village` result is a scored member of the
filtered pool, and its score is below every other scored candidate. -/
lemma compare_village_some_spec (B : EEBackend) (v : String)
    (x : Region × Rat) (h : compare_village B v = some x) :
    x ∈ scoredPool B v ∧ ∀ y ∈ scoredPool B v, x.2 ≤ y.2 := by
  rw [compare_village_eq_head] at h
  rcases hs : List.insertionSort diffLE (scoredPool B v) with _ | ⟨a, l⟩
  · rw [hs] at h
    simp at h
  · rw [hs] at h
    have hax : a = x := by simpa using h
    obtain rfl := hax
    have hperm := List.perm_insertionSort diffLE (scoredPool B v)
    rw [hs] at hperm
    have hsorted := List.sorted_insertionSort diffLE (scoredPool B v)
    rw [hs] at hsorted
    constructor
    · exact hperm.mem_iff.mp (List.mem_cons_self a l)
    · intro y hy
      have hy2 : y ∈ a :: l := hperm.mem_iff.mpr hy
      rcases List.mem_cons.mp hy2 with hEq | hMem
      · rw [hEq]
      · exact List.rel_of_sorted_cons hsorted y hMem

/-- Helper: with a non-empty filtered pool, `compare_village` returns some
scored candidate. -/
lemma compare_village_isSome (B : EEBackend) (v : String)
    (hne : filteredPool B v ≠ []) :
    ∃ x, compare_village B v = some x := by
  rw [compare_village_eq_head]
  rcases hs : List.insertionSort diffLE (scoredPool B v) with _ | ⟨a, l⟩
  · exfalso
    have hperm := List.perm_insertionSort diffLE (scoredPool B v)
    rw [hs] at hperm
    have : scoredPool B v = [] := hperm.symm.eq_nil
    exact hne (List.map_eq_nil_iff.mp this)
  · exact ⟨a, rfl⟩

/-- Definition following the words of the spec for claim C6: the candidate
pool as "the siblings whose geometry intersects the treated geometry buffered
by the fixed radius, excluding the treated Region itself and excluding any
candidate whose name attribute is empty", with the treated Region excluded by
feature identity.  To be compared with `filteredPool`, which is the pool the
source code actually builds. -/
def specCandidatePool (B : EEBackend) (treated : Region) : List Region :=
  B.siblings.filter (fun c =>
    B.intersects c.geom (B.buffer B.village_fc_geom compare_village_buffer)
      && c != treated && c.name != "")

/-- Name of the treated village used in the concrete matcher runs. -/
def treatedName : String := "treated"

/-- Concrete backend for the C1 scenario: treated statistic 12.5 and three
candidates with statistics 11, 13 and 20. -/
def c1Backend : EEBackend where
  village_fc_geom := 0
  siblings := [⟨"alpha", 1⟩, ⟨"beta", 2⟩, ⟨"gamma", 3⟩]
  buffer := fun g _ => g
  intersects := fun _ _ => true
  slopeStd := fun g =>
    if g = 1 then 11 else if g = 2 then 13 else if g = 3 then 20 else 25 / 2

/-- C1: for every run with a non-zero treated terrain statistic and a
non-empty filtered candidate pool, `compare_village` returns a scored
candidate that belongs to the filtered pool, whose score is
`relative_diff = abs((candidate_stat - treated_stat) / treated_stat) * 100`,
and no surviving candidate has a strictly smaller relative difference.
In the concrete scenario with treated statistic 12.5 and candidate statistics
11, 13 and 20, the relative differences are 12, 4 and 60 and the second
candidate is returned with difference 4. -/
theorem C1_find_control_minimizes :
    (∀ (B : EEBackend) (v : String),
        B.slopeStd B.village_fc_geom ≠ 0 →
        filteredPool B v ≠ [] →
        ∃ x, compare_village B v = some x ∧ x.1 ∈ filteredPool B v ∧
          x.2 = relative_diff (B.slopeStd B.village_fc_geom)
            (B.slopeStd x.1.geom) ∧
          ∀ c ∈ filteredPool B v,
            x.2 ≤ relative_diff (B.slopeStd B.village_fc_geom)
              (B.slopeStd c.geom)) ∧
    relative_diff (25 / 2) 11 = 12 ∧ relative_diff (25 / 2) 13 = 4 ∧
    relative_diff (25 / 2) 20 = 60 ∧
    compare_village c1Backend treatedName = some (⟨"beta", 2⟩, 4) := by
  refine ⟨?_, by norm_num [relative_diff], by norm_num [relative_diff],
    by norm_num [relative_diff],
    by norm_num [compare_village, filteredPool, c1Backend, treatedName,
      relative_diff, List.insertionSort, List.orderedInsert, diffLE]⟩
  intro B v h0 hne
  obtain ⟨x, hx⟩ := compare_village_isSome B v hne
  obtain ⟨hmem, hmin⟩ := compare_village_some_spec B v x hx
  obtain ⟨c, hc, heq⟩ := List.mem_map.mp hmem
  obtain rfl := heq
  refine ⟨_, hx, hc, rfl, ?_⟩
  intro c2 hc2
  exact hmin _ (List.mem_map_of_mem _ hc2)

/-- Witness for C1: the general theorem applied to the concrete 12.5 versus
11, 13, 20 scenario. -/
theorem C1_find_control_minimizes_witness :
    ∃ x, compare_village c1Backend treatedName = some x ∧
      x.1 ∈ filteredPool c1Backend treatedName ∧
      x.2 = relative_diff (c1Backend.slopeStd c1Backend.village_fc_geom)
        (c1Backend.slopeStd x.1.geom) ∧
      ∀ c ∈ filteredPool c1Backend treatedName,
        x.2 ≤ relative_diff (c1Backend.slopeStd c1Backend.village_fc_geom)
          (c1Backend.slopeStd c.geom) :=
  C1_find_control_minimizes.1 c1Backend treatedName
    (by norm_num [c1Backend]) (by decide)

/-- Concrete backend for the C3 counterexample: the treated slope statistic
is exactly 0 and one candidate survives the filters. -/
def c3Backend : EEBackend where
  village_fc_geom := 0
  siblings := [⟨"neighbor", 1⟩]
  buffer := fun g _ => g
  intersects := fun _ _ => true
  slopeStd := fun g => if g = 1 then 5 else 0

/-- Counterexample to C3: with a treated terrain statistic of exactly 0,
`compare_village` does not fail; the backend convention that division by zero
yields 0 makes the relative difference of the surviving candidate 0, and that
candidate is silently returned. -/
theorem C3_counterexample :
    c3Backend.slopeStd c3Backend.village_fc_geom = 0 ∧
    compare_village c3Backend treatedName = some (⟨"neighbor", 1⟩, 0) := by
  constructor
  · norm_num [c3Backend]
  · norm_num [compare_village, filteredPool, c3Backend, treatedName,
      relative_diff, List.insertionSort, List.orderedInsert, diffLE]

/-- C3 amended: `compare_village` does not fail explicitly in either
degenerate case.  With an empty filtered pool it returns the backend null
feature (`none`, the `first()` of an empty collection) instead of raising;
with a zero treated statistic it returns some pool candidate whose computed
relative difference is 0 (division by zero yields 0 in the backend). -/
theorem C3_amended_no_explicit_failure :
    (∀ (B : EEBackend) (v : String),
        filteredPool B v = [] → compare_village B v = none) ∧
    (∀ (B : EEBackend) (v : String),
        B.slopeStd B.village_fc_geom = 0 →
        filteredPool B v ≠ [] →
        ∃ c ∈ filteredPool B v, compare_village B v = some (c, 0)) := by
  constructor
  · intro B v hpool
    rw [compare_village_eq_head]
    unfold scoredPool
    rw [hpool]
    rfl
  · intro B v h0 hne
    obtain ⟨x, hx⟩ := compare_village_isSome B v hne
    obtain ⟨hmem, _⟩ := compare_village_some_spec B v x hx
    obtain ⟨c, hc, heq⟩ := List.mem_map.mp hmem
    refine ⟨c, hc, ?_⟩
    rw [h0] at heq
    have hdiff : relative_diff 0 (B.slopeStd c.geom) = 0 := by
      unfold relative_diff
      simp
    rw [hdiff] at heq
    rw [heq]
    exact hx

/-- Concrete backend for the C6 counterexample: a single sibling that is a
distinct feature (geometry 7) but carries the same name as the treated
village.  Its filtered pool for the treated name is empty, which the amended
C3 also exercises. -/
def c6Backend : EEBackend where
  village_fc_geom := 0
  siblings := [⟨"treated", 7⟩]
  buffer := fun g _ => g
  intersects := fun _ _ => true
  slopeStd := fun _ => 1

/-- Witness for the amended C3: both degenerate behaviors at concrete
inputs. -/
theorem C3_amended_witness :
    compare_village c6Backend treatedName = none ∧
    ∃ c ∈ filteredPool c3Backend treatedName,
      compare_village c3Backend treatedName = some (c, 0) :=
  ⟨C3_amended_no_explicit_failure.1 c6Backend treatedName (by decide),
   C3_amended_no_explicit_failure.2 c3Backend treatedName
     (by norm_num [c3Backend]) (by decide)⟩

/-- Counterexample to C6: the pool built by the source differs from the pool
described by the claim (exclusion of the treated Region by identity).  The
distinct sibling feature sharing the treated name is excluded by the source
but kept by the claim. -/
theorem C6_counterexample :
    filteredPool c6Backend treatedName ≠
      specCandidatePool c6Backend ⟨"treated", 0⟩ := by
  decide

/-- C6 amended: the buffer radius is the fixed constant 5000 and the
candidate pool is exactly the siblings intersecting the buffered treated
geometry, excluding every candidate whose name equals the treated village
name (which removes the treated Region itself) and every candidate with an
empty name attribute. -/
theorem C6_amended_pool_characterization :
    compare_village_buffer = 5000 ∧
    ∀ (B : EEBackend) (v : String) (c : Region),
      c ∈ filteredPool B v ↔
        c ∈ B.siblings ∧
        B.intersects c.geom
          (B.buffer B.village_fc_geom compare_village_buffer) = true ∧
        c.name ≠ v ∧ c.name ≠ "" := by
  refine ⟨rfl, ?_⟩
  intro B v c
  unfold filteredPool
  simp only [List.mem_filter, bne_iff_ne]
  tauto

/-- Concrete backend for the C10 witness: the sibling list contains a
feature named like the treated village and one differently named feature. -/
def c10Backend : EEBackend where
  village_fc_geom := 0
  siblings := [⟨"treated", 9⟩, ⟨"beta", 2⟩]
  buffer := fun g _ => g
  intersects := fun _ _ => true
  slopeStd := fun g => if g = 2 then 12 else 10

/-- C10: exclusion of candidates is by the village name attribute, not by
feature identity: every sibling whose name equals the treated village name is
removed from the candidate pool, and a returned control match never carries
the treated village name. -/
theorem C10_name_exclusion :
    ∀ (B : EEBackend) (v : String) (c : Region) (d : Rat),
      (c ∈ B.siblings → c.name = v → c ∉ filteredPool B v) ∧
      (compare_village B v = some (c, d) → c.name ≠ v) := by
  intro B v c d
  constructor
  · intro _ hname hmem
    unfold filteredPool at hmem
    simp only [List.mem_filter, bne_iff_ne] at hmem
    exact hmem.1.2 hname
  · intro hcv
    obtain ⟨hmem, _⟩ := compare_village_some_spec B v (c, d) hcv
    obtain ⟨c0, hc0, heq⟩ := List.mem_map.mp hmem
    have hfst : c0 = c := congrArg Prod.fst heq
    subst hfst
    unfold filteredPool at hc0
    simp only [List.mem_filter, bne_iff_ne] at hc0
    exact hc0.1.2

/-- Witness for C10: the same-named sibling feature (geometry 9) is excluded
from the pool, and the returned match has a different name. -/
theorem C10_name_exclusion_witness :
    (⟨"treated", 9⟩ : Region) ∉ filteredPool c10Backend treatedName ∧
    (⟨"beta", 2⟩ : Region).name ≠ treatedName :=
  ⟨(C10_name_exclusion c10Backend treatedName ⟨"treated", 9⟩ 0).1
      (by decide) rfl,
   (C10_name_exclusion c10Backend treatedName ⟨"beta", 2⟩ 20).2
      (by norm_num [compare_village, filteredPool, c10Backend, treatedName,
        relative_diff, List.insertionSort, List.orderedInsert, diffLE])⟩

/-!
Area-equivalent sampler: `calculate_area`, `calculate_radius` and
`process_custom_polygon` from gee_api/polygon_processing.py.  A feature
collection is represented by the two backend answers the code can ask of it;
`Except.error` models a raised backend exception.
-/

deriving instance DecidableEq for Except

/-- Backend answers observable on one feature collection: the result of
`fc.size().getInfo()` and of `fc.geometry().area().getInfo()`. -/
structure FCModel where
  sizeQ : Except String Nat
  areaQ : Except String Rat
deriving DecidableEq, Repr

/-- Shallow embedding of `calculate_area` (polygon_processing.py lines
10-36): 0 for an empty collection, the backend area when it is positive, and
1 when the backend area is non-positive or any backend call raises. -/
def calculate_area (fc : FCModel) : Rat :=
  match fc.sizeQ with
  | .error _ => 1
  | .ok 0 => 0
  | .ok (_ + 1) =>
    match fc.areaQ with
    | .error _ => 1
    | .ok a => if a ≤ 0 then 1 else a

/-- Shallow embedding of `calculate_radius` (polygon_processing.py lines
38-50).  The float `** 0.5` primitive is the oracle `sqrtR`; the source
constant for π is 3.14159. -/
def calculate_radius (sqrtR : Rat → Rat) (polygon_area : Rat) (n : Int) :
    Rat :=
  if polygon_area ≤ 0 ∨ n ≤ 0 then 30
  else sqrtR (polygon_area / (n * (314159 / 100000)))

/-- Circle produced by the sampler: a sampled point (or the fallback
centroid) buffered by the computed radius. -/
structure Circle where
  center : Nat
  radius : Rat
deriving DecidableEq, Repr

/-- Backend answers observed by one `process_custom_polygon` run
(polygon_processing.py lines 97-184): the custom polygon collection, the
control village collection, the collection made of its first feature
(lines 122-128), the forced result of the stratified sampling over the
cropland mask (lines 162-169; an empty cropland mask or any sampling failure
surfaces as `.error`, caught by the except branch), the control village
centroid (line 173) and the float square root primitive. -/
structure SamplerRun where
  custom_polygon : FCModel
  control_village : FCModel
  first_feature : Except String FCModel
  sampleQ : Except String (List Nat)
  control_centroid : Nat
  sqrtR : Rat → Rat

/-- Dictionary returned by `process_custom_polygon` (lines 178-184): the raw
polygon area, the floor-adjusted control area, the radius, the sampled
points and the circle list.  The effective (clamped) polygon area is not a
field of this record. -/
structure SamplerResult where
  polygon_area : Rat
  control_area : Rat
  radius : Rat
  points : Except String (List Nat)
  circles : List Circle
deriving DecidableEq, Repr

/-- Control village collection actually used (lines 117-128): kept as is
when empty, otherwise replaced by the collection of its first feature (and
kept as is when taking the first feature raises). -/
def controlFC (run : SamplerRun) : FCModel :=
  match run.control_village.sizeQ with
  | .ok 0 => run.control_village
  | _ =>
    match run.first_feature with
    | .ok fc => fc
    | .error _ => run.control_village

/-- Raw polygon area of the run (line 131). -/
def pcpPolygonArea (run : SamplerRun) : Rat :=
  calculate_area run.custom_polygon

/-- Control area after the minimum-hectare floor (lines 132-139): below
10000 square meters it is replaced by the larger of twice the polygon area
and 100000. -/
def pcpControlArea (run : SamplerRun) : Rat :=
  if calculate_area (controlFC run) < 10000 then
    max (pcpPolygonArea run * 2) 100000
  else calculate_area (controlFC run)

/-- Effective polygon area after the 80 percent clamp (lines 141-147). -/
def pcpEffectiveArea (run : SamplerRun) : Rat :=
  if pcpPolygonArea run > pcpControlArea run then
    pcpControlArea run * (8 / 10)
  else pcpPolygonArea run

/-- Radius computed for the run (line 150). -/
def pcpRadius (run : SamplerRun) (n : Int) : Rat :=
  calculate_radius run.sqrtR (pcpEffectiveArea run) n

/-- Shallow embedding of `process_custom_polygon` (polygon_processing.py
lines 97-184).  The only backend query outside a try block is the control
village size (line 114), so only that failure propagates; a sampling failure
is caught and replaced by one fallback circle at the control centroid
(lines 170-176). -/
def process_custom_polygon (run : SamplerRun) (num_points : Int) :
    Except String SamplerResult :=
  match run.control_village.sizeQ with
  | .error e => .error e
  | .ok _ =>
    let radius := pcpRadius run num_points
    let circles : List Circle :=
      match run.sampleQ with
      | .ok pts => pts.map (fun p => ⟨p, radius⟩)
      | .error _ => [⟨run.control_centroid, radius⟩]
    .ok ⟨pcpPolygonArea run, pcpControlArea run, radius, run.sampleQ, circles⟩

/-- Helper: the floor-adjusted control area is always strictly positive. -/
lemma pcpControlArea_pos (run : SamplerRun) : 0 < pcpControlArea run := by
  unfold pcpControlArea
  split
  · calc (0 : Rat) < 100000 := by norm_num
      _ ≤ max (pcpPolygonArea run * 2) 100000 := le_max_right _ _
  · linarith [not_lt.mp (by assumption : ¬ calculate_area (controlFC run) < 10000)]

/-- Helper: with a positive raw polygon area the effective area is strictly
positive. -/
lemma pcpEffectiveArea_pos (run : SamplerRun)
    (h : 0 < pcpPolygonArea run) : 0 < pcpEffectiveArea run := by
  unfold pcpEffectiveArea
  split
  · have := pcpControlArea_pos run
    positivity
  · exact h

/-- C7: for a non-positive polygon area or a non-positive circle count,
`calculate_radius` returns the fixed minimum radius 30, whatever the square
root oracle: the square root and division branch is never consulted. -/
theorem C7_minimum_radius :
    ∀ (sqrtR : Rat → Rat) (a : Rat) (n : Int),
      a ≤ 0 ∨ n ≤ 0 → calculate_radius sqrtR a n = 30 := by
  intro s a n h
  unfold calculate_radius
  rw [if_pos h]

/-- Witness for C7 at polygon area 0 and n = 10. -/
theorem C7_minimum_radius_witness :
    calculate_radius (fun q => q) 0 10 = 30 :=
  C7_minimum_radius (fun q => q) 0 10 (Or.inl le_rfl)

/-- C8: an empty feature collection yields area 0 from `calculate_area`
instead of an exception. -/
theorem C8_empty_area_zero :
    ∀ fc : FCModel, fc.sizeQ = Except.ok 0 → calculate_area fc = 0 := by
  intro fc h
  unfold calculate_area
  rw [h]

/-- Witness for C8 on a concrete empty collection. -/
theorem C8_empty_area_zero_witness :
    calculate_area ⟨Except.ok 0, Except.ok 5⟩ = 0 :=
  C8_empty_area_zero ⟨Except.ok 0, Except.ok 5⟩ rfl

/-- C9: `calculate_area` is a total function; it returns 0 exactly for an
empty collection, a strictly positive value for every non-empty collection,
and substitutes 1 when the backend area is non-positive or the backend area
query raises — a degenerate geometry is silently reported as area 1 rather
than surfaced as an error. -/
theorem C9_area_total_positive :
    ∀ fc : FCModel,
      (fc.sizeQ = Except.ok 0 → calculate_area fc = 0) ∧
      (∀ k : Nat, fc.sizeQ = Except.ok (k + 1) → 0 < calculate_area fc) ∧
      (∀ (k : Nat) (a : Rat), fc.sizeQ = Except.ok (k + 1) →
        fc.areaQ = Except.ok a → a ≤ 0 → calculate_area fc = 1) ∧
      (∀ (k : Nat) (e : String), fc.sizeQ = Except.ok (k + 1) →
        fc.areaQ = Except.error e → calculate_area fc = 1) := by
  intro fc
  refine ⟨?_, ?_, ?_, ?_⟩
  · intro h
    unfold calculate_area
    rw [h]
  · intro k h
    rcases ha : fc.areaQ with e | a
    · simp [calculate_area, h, ha]
    · by_cases hle : a ≤ 0
      · simp [calculate_area, h, ha, hle]
      · simp only [calculate_area, h, ha]
        rw [if_neg hle]
        exact not_le.mp hle
  · intro k a h ha hle
    simp [calculate_area, h, ha, hle]
  · intro k e h ha
    simp [calculate_area, h, ha]

/-- Witness for C9: a non-empty collection whose backend area is negative is
reported with area 1. -/
theorem C9_area_total_positive_witness :
    calculate_area ⟨Except.ok 1, Except.ok (-5)⟩ = 1 :=
  (C9_area_total_positive ⟨Except.ok 1, Except.ok (-5)⟩).2.2.1 0 (-5) rfl rfl
    (by norm_num)

/-- C5: when the forced point sampling raises (which is how an empty
cropland mask over the sampling envelope surfaces from the backend),
`process_custom_polygon` returns exactly one fallback circle, centered at
the control village centroid and buffered by the computed radius — never an
empty circle set. -/
theorem C5_fallback_single_circle :
    ∀ (run : SamplerRun) (n : Int) (cv : Nat) (e : String),
      run.control_village.sizeQ = Except.ok cv →
      run.sampleQ = Except.error e →
      ∃ res, process_custom_polygon run n = Except.ok res ∧
        res.circles = [⟨run.control_centroid, pcpRadius run n⟩] ∧
        res.radius = pcpRadius run n := by
  intro run n cv e hs he
  refine ⟨⟨pcpPolygonArea run, pcpControlArea run, pcpRadius run n,
    run.sampleQ, [⟨run.control_centroid, pcpRadius run n⟩]⟩, ?_, rfl, rfl⟩
  simp [process_custom_polygon, hs, he]

/-- Error message used for the failing sampler run of the C5 witness. -/
def sampleErr : String := "no valid pixels"

/-- Concrete run for the C5 witness: sampling fails, centroid handle 42. -/
def c5Run : SamplerRun where
  custom_polygon := ⟨Except.ok 1, Except.ok 40000⟩
  control_village := ⟨Except.ok 1, Except.ok 100000⟩
  first_feature := Except.ok ⟨Except.ok 1, Except.ok 100000⟩
  sampleQ := Except.error sampleErr
  control_centroid := 42
  sqrtR := fun q => q

/-- Witness for C5 at the concrete failing run. -/
theorem C5_fallback_single_circle_witness :
    ∃ res, process_custom_polygon c5Run 10 = Except.ok res ∧
      res.circles = [⟨c5Run.control_centroid, pcpRadius c5Run 10⟩] ∧
      res.radius = pcpRadius c5Run 10 :=
  C5_fallback_single_circle c5Run 10 1 sampleErr rfl rfl

/-- Concrete run for C2: raw polygon area 100000 exceeds the control area
314159/5 = 62831.8, so the 80 percent clamp fires; the clamped area divided
by `n * 3.14159` is exactly 1600, on which the square root oracle is exact
(40). -/
def c2Run : SamplerRun where
  custom_polygon := ⟨Except.ok 1, Except.ok 100000⟩
  control_village := ⟨Except.ok 1, Except.ok (314159 / 5)⟩
  first_feature := Except.ok ⟨Except.ok 1, Except.ok (314159 / 5)⟩
  sampleQ := Except.ok [1, 2, 3, 4, 5, 6, 7, 8, 9, 10]
  control_centroid := 0
  sqrtR := fun q => if q = 1600 then 40 else 0

/-- Counterexample to C2: on this run the effective area is exactly
0.8 times the control area (1256636/25), sampling proceeds, but the
returned record does not report the effective area: its numeric fields are
the raw polygon area 100000, the control area 314159/5 and the radius 40,
none of which equals 1256636/25. -/
theorem C2_counterexample :
    pcpEffectiveArea c2Run = pcpControlArea c2Run * (8 / 10) ∧
    pcpEffectiveArea c2Run = 1256636 / 25 ∧
    (∃ res, process_custom_polygon c2Run 10 = Except.ok res ∧
      res.polygon_area = 100000 ∧ res.control_area = 314159 / 5 ∧
      res.radius = 40 ∧
      res.polygon_area ≠ 1256636 / 25 ∧ res.control_area ≠ 1256636 / 25 ∧
      res.radius ≠ 1256636 / 25) := by
  have harea : pcpPolygonArea c2Run = 100000 := by
    norm_num [pcpPolygonArea, calculate_area, c2Run]
  have hctrl : pcpControlArea c2Run = 314159 / 5 := by
    norm_num [pcpControlArea, controlFC, calculate_area, c2Run]
  have heff : pcpEffectiveArea c2Run = 1256636 / 25 := by
    rw [pcpEffectiveArea, harea, hctrl]
    norm_num
  have hrad : pcpRadius c2Run 10 = 40 := by
    rw [pcpRadius, calculate_radius, heff]
    norm_num [c2Run]
  refine ⟨?_, heff, ?_⟩
  · rw [heff, hctrl]
    norm_num
  · refine ⟨⟨pcpPolygonArea c2Run, pcpControlArea c2Run, pcpRadius c2Run 10,
      c2Run.sampleQ,
      List.map (fun p => ⟨p, pcpRadius c2Run 10⟩) [1, 2, 3, 4, 5, 6, 7, 8, 9, 10]⟩,
      rfl, ?_, ?_, ?_, ?_, ?_, ?_⟩
    · exact harea
    · exact hctrl
    · exact hrad
    · rw [harea]
      norm_num
    · rw [hctrl]
      norm_num
    · rw [hrad]
      norm_num

/-- C2 amended: when the raw polygon area exceeds the floor-adjusted control
area, `process_custom_polygon` does not fail; the effective polygon area
used for the radius equals exactly 0.8 times the control area, and the
returned record reports the raw polygon area and the control area — the
effective area is reflected only through the radius computed from it. -/
theorem C2_amended_clamp :
    ∀ (run : SamplerRun) (n : Int) (cv : Nat),
      run.control_village.sizeQ = Except.ok cv →
      pcpControlArea run < pcpPolygonArea run →
      ∃ res, process_custom_polygon run n = Except.ok res ∧
        pcpEffectiveArea run = pcpControlArea run * (8 / 10) ∧
        res.radius =
          calculate_radius run.sqrtR (pcpControlArea run * (8 / 10)) n ∧
        res.polygon_area = pcpPolygonArea run ∧
        res.control_area = pcpControlArea run := by
  intro run n cv hs hlt
  have heff : pcpEffectiveArea run = pcpControlArea run * (8 / 10) := by
    unfold pcpEffectiveArea
    rw [if_pos hlt]
  refine ⟨⟨pcpPolygonArea run, pcpControlArea run, pcpRadius run n,
    run.sampleQ, ?_⟩, ?_, heff, ?_, rfl, rfl⟩
  · exact match run.sampleQ with
      | .ok pts => pts.map (fun p => ⟨p, pcpRadius run n⟩)
      | .error _ => [⟨run.control_centroid, pcpRadius run n⟩]
  · simp [process_custom_polygon, hs]
  · rw [pcpRadius, heff]

/-- Witness for the amended C2 at the concrete clamped run. -/
theorem C2_amended_clamp_witness :
    ∃ res, process_custom_polygon c2Run 10 = Except.ok res ∧
      pcpEffectiveArea c2Run = pcpControlArea c2Run * (8 / 10) ∧
      res.radius =
        calculate_radius c2Run.sqrtR (pcpControlArea c2Run * (8 / 10)) 10 ∧
      res.polygon_area = pcpPolygonArea c2Run ∧
      res.control_area = pcpControlArea c2Run :=
  C2_amended_clamp c2Run 10 1 rfl
    (by norm_num [pcpControlArea, pcpPolygonArea, controlFC, calculate_area,
      c2Run])

/-- Helper: with a positive effective area and a positive count the guard of
`calculate_radius` is not taken and the radius is the square root oracle
applied to `effective_area / (n * 3.14159)`. -/
lemma pcpRadius_eq (run : SamplerRun) (n : Int)
    (heff : 0 < pcpEffectiveArea run) (hn : 0 < n) :
    pcpRadius run n =
      run.sqrtR (pcpEffectiveArea run / (n * (314159 / 100000))) := by
  have hc : ¬(pcpEffectiveArea run ≤ 0 ∨ n ≤ 0) := by
    push_neg
    exact ⟨heff, hn⟩
  unfold pcpRadius calculate_radius
  rw [if_neg hc]

/-- C4: for a positive polygon area and positive requested count, when the
backend sampling succeeds with n points (no fallback), the run returns
exactly n circles, all carrying the computed radius; when the square root
oracle is exact at its argument, n times the source constant 3.14159 times
the squared radius recovers the effective polygon area exactly, and n times
the real π times the squared radius lies within a relative 1/100000 of the
effective area.  Moreover any nonnegative real radius satisfying the radius
equation for polygon area 40000 and n = 10 lies strictly between 35.68 and
35.69. -/
theorem C4_equal_area_circles :
    ∀ (run : SamplerRun) (n : Int) (cv : Nat) (pts : List Nat),
      run.control_village.sizeQ = Except.ok cv →
      0 < pcpPolygonArea run →
      0 < n →
      run.sampleQ = Except.ok pts →
      pts.length = n.toNat →
      (run.sqrtR (pcpEffectiveArea run / (n * (314159 / 100000)))) ^ 2 =
        pcpEffectiveArea run / (n * (314159 / 100000)) →
      ∃ res, process_custom_polygon run n = Except.ok res ∧
        res.circles.length = n.toNat ∧
        (∀ c ∈ res.circles, c.radius = res.radius) ∧
        (n : Rat) * (314159 / 100000) * res.radius ^ 2 =
          pcpEffectiveArea run ∧
        ((pcpEffectiveArea run : ℝ) <
            (n : ℝ) * Real.pi * (res.radius : ℝ) ^ 2 ∧
          (n : ℝ) * Real.pi * (res.radius : ℝ) ^ 2 <
            (pcpEffectiveArea run : ℝ) * (1 + 1 / 100000)) ∧
        (∀ r : ℝ, 0 ≤ r → (10 : ℝ) * (314159 / 100000) * r ^ 2 = 40000 →
          3568 / 100 < r ∧ r < 3569 / 100) := by
  intro run n cv pts hs hA hn hsQ hlen hsq
  have heff : 0 < pcpEffectiveArea run := pcpEffectiveArea_pos run hA
  have hnQ : (0 : Rat) < (n : Rat) := by exact_mod_cast hn
  have hcpos : (0 : Rat) < (n : Rat) * (314159 / 100000) := by positivity
  have hrad : pcpRadius run n =
      run.sqrtR (pcpEffectiveArea run / (n * (314159 / 100000))) :=
    pcpRadius_eq run n heff hn
  have hq2eq : (pcpRadius run n) ^ 2 =
      pcpEffectiveArea run / ((n : Rat) * (314159 / 100000)) := by
    rw [hrad, hsq]
  have hmain : (n : Rat) * (314159 / 100000) * (pcpRadius run n) ^ 2 =
      pcpEffectiveArea run := by
    rw [hq2eq]
    field_simp
    ring
  have hq2pos : (0 : Rat) < (pcpRadius run n) ^ 2 := by
    rw [hq2eq]
    exact div_pos heff hcpos
  refine ⟨⟨pcpPolygonArea run, pcpControlArea run, pcpRadius run n,
    run.sampleQ, pts.map (fun p => ⟨p, pcpRadius run n⟩)⟩, ?_, ?_, ?_, ?_,
    ?_, ?_⟩
  · simp [process_custom_polygon, hs, hsQ]
  · show (pts.map _).length = n.toNat
    simp [hlen]
  · intro c hc
    show c.radius = pcpRadius run n
    simp only [List.mem_map] at hc
    obtain ⟨p, _, rfl⟩ := hc
    rfl
  · exact hmain
  · have hmainR0 := congrArg (fun q : Rat => (q : ℝ)) hmain
    simp only at hmainR0
    push_cast at hmainR0
    have hmainR : (n : ℝ) * (314159 / 100000) *
        ((pcpRadius run n : Rat) : ℝ) ^ 2 =
        ((pcpEffectiveArea run : Rat) : ℝ) := by
      rw [← hmainR0]
    have hEpos : (0 : ℝ) < ((pcpEffectiveArea run : Rat) : ℝ) := by
      exact_mod_cast heff
    have hnR : (0 : ℝ) < (n : ℝ) := by exact_mod_cast hn
    have hr2posR : (0 : ℝ) < ((pcpRadius run n : Rat) : ℝ) ^ 2 := by
      exact_mod_cast hq2pos
    have hprod : (0 : ℝ) < (n : ℝ) * ((pcpRadius run n : Rat) : ℝ) ^ 2 :=
      mul_pos hnR hr2posR
    have hπl : (314159 / 100000 : ℝ) < Real.pi := by
      have h6 := Real.pi_gt_d6
      nlinarith [h6]
    have hπu : Real.pi < (314159 / 100000 : ℝ) * (1 + 1 / 100000) := by
      have h6 := Real.pi_lt_d6
      nlinarith [h6]
    constructor
    · have key := mul_lt_mul_of_pos_left hπl hprod
      calc ((pcpEffectiveArea run : Rat) : ℝ)
          = (n : ℝ) * (314159 / 100000) * ((pcpRadius run n : Rat) : ℝ) ^ 2 :=
            hmainR.symm
        _ = (n : ℝ) * ((pcpRadius run n : Rat) : ℝ) ^ 2 * (314159 / 100000) :=
            by ring
        _ < (n : ℝ) * ((pcpRadius run n : Rat) : ℝ) ^ 2 * Real.pi :=
            by nlinarith [key]
        _ = (n : ℝ) * Real.pi * ((pcpRadius run n : Rat) : ℝ) ^ 2 := by ring
    · have key2 := mul_lt_mul_of_pos_left hπu hprod
      calc (n : ℝ) * Real.pi * ((pcpRadius run n : Rat) : ℝ) ^ 2
          = (n : ℝ) * ((pcpRadius run n : Rat) : ℝ) ^ 2 * Real.pi := by ring
        _ < (n : ℝ) * ((pcpRadius run n : Rat) : ℝ) ^ 2 *
            ((314159 / 100000) * (1 + 1 / 100000)) := by nlinarith [key2]
        _ = ((n : ℝ) * (314159 / 100000) *
            ((pcpRadius run n : Rat) : ℝ) ^ 2) * (1 + 1 / 100000) := by ring
        _ = ((pcpEffectiveArea run : Rat) : ℝ) * (1 + 1 / 100000) := by
            rw [hmainR]
  · intro r hr hreq
    have hr2v : r ^ 2 = 400000000 / 314159 := by linarith
    constructor
    · nlinarith [hr2v, hr]
    · nlinarith [hr2v, hr]

/-- Concrete run for the C4 witness: polygon area 50265.44 with n = 10 gives
the exact square 1600 under the division by 10 times 3.14159, so the square
root oracle is exact there with value 40. -/
def c4Run : SamplerRun where
  custom_polygon := ⟨Except.ok 1, Except.ok (5026544 / 100)⟩
  control_village := ⟨Except.ok 1, Except.ok 100000⟩
  first_feature := Except.ok ⟨Except.ok 1, Except.ok 100000⟩
  sampleQ := Except.ok [1, 2, 3, 4, 5, 6, 7, 8, 9, 10]
  control_centroid := 0
  sqrtR := fun q => if q = 1600 then 40 else 0

/-- Witness for C4 at the concrete exact-square run. -/
theorem C4_equal_area_circles_witness :
    ∃ res, process_custom_polygon c4Run 10 = Except.ok res ∧
      res.circles.length = (10 : Int).toNat ∧
      (∀ c ∈ res.circles, c.radius = res.radius) ∧
      ((10 : Int) : Rat) * (314159 / 100000) * res.radius ^ 2 =
        pcpEffectiveArea c4Run ∧
      ((pcpEffectiveArea c4Run : Rat) : ℝ) <
          ((10 : Int) : ℝ) * Real.pi * (res.radius : ℝ) ^ 2 ∧
        ((10 : Int) : ℝ) * Real.pi * (res.radius : ℝ) ^ 2 <
          ((pcpEffectiveArea c4Run : Rat) : ℝ) * (1 + 1 / 100000) ∧
      (∀ r : ℝ, 0 ≤ r → (10 : ℝ) * (314159 / 100000) * r ^ 2 = 40000 →
        3568 / 100 < r ∧ r < 3569 / 100) := by
  have h := C4_equal_area_circles c4Run 10 1 [1, 2, 3, 4, 5, 6, 7, 8, 9, 10]
    rfl
    (by norm_num [pcpPolygonArea, calculate_area, c4Run])
    (by norm_num)
    rfl
    (by decide)
    (by
      have h1 : pcpEffectiveArea c4Run = 5026544 / 100 := by
        norm_num [pcpEffectiveArea, pcpControlArea, pcpPolygonArea,
          controlFC, calculate_area, c4Run]
      rw [h1]
      norm_num [c4Run])
  obtain ⟨res, h1, h2, h3, h4, ⟨h5, h6⟩, h7⟩ := h
  exact ⟨res, h1, h2, h3, h4, h5, h6, h7⟩

end JaltolAPI
